import Mathlib

/-!
Verification development for the Langgraph-app repository.

The Python sources are shallowly embedded: pure functions become Lean
functions, stateful methods become explicit state passing, Python floats
become exact arithmetic (rationals for vector entries, reals for the
similarity scores which involve square roots), fallible calls to external
capabilities (the Groq language model, the Qdrant cloud client, the
sentence-transformers embedder, PDF extraction) become explicit
outcome parameters of type Except, and a raised exception caught
by a try/except block becomes a match on such an outcome.
-/

namespace LanggraphApp

/-! ## Python string helpers

Models of the Python builtins str.strip and str.lower used by
classify_intent in src/graph/nodes.py. -/

/-- Model of Python str.strip: removes leading and trailing whitespace. -/
def pyStrip (s : String) : String :=
  String.mk (((s.data.dropWhile Char.isWhitespace).reverse.dropWhile
      Char.isWhitespace).reverse)

/-- Model of Python str.lower (ASCII range, which covers the labels used). -/
def pyLower (s : String) : String :=
  String.mk (s.data.map Char.toLower)

/-! ## Vector math: VectorStore._cosine_similarity

From src/services/vector_store.py lines 216-231.  Vector entries are
rationals (exact stand-in for floats); the score is a real number because
the norms involve square roots.  np.dot raises on mismatched lengths and
the bare except then returns 0.0, which the length guard below models. -/

/-- Model of np.dot on two equal-length vectors: sum of pointwise products. -/
def dotQ (v w : List ℚ) : ℚ :=
  (List.zipWith (fun a b => a * b) v w).sum

/-- Squared Euclidean norm; np.linalg.norm is its square root, and
norm == 0 holds exactly when the squared norm is 0. -/
def normSq (v : List ℚ) : ℚ := dotQ v v

/-- Model of VectorStore._cosine_similarity.  On mismatched lengths np.dot
raises and the except branch returns 0.0; if either norm is zero the code
returns 0.0; otherwise it returns the normalized dot product. -/
noncomputable def cosine_similarity (v w : List ℚ) : ℝ :=
  if v.length = w.length then
    if normSq v = 0 ∨ normSq w = 0 then 0
    else ((dotQ v w : ℚ) : ℝ) /
      (Real.sqrt ((normSq v : ℚ) : ℝ) * Real.sqrt ((normSq w : ℚ) : ℝ))
  else 0

theorem dotQ_nil_left (w : List ℚ) : dotQ [] w = 0 := rfl

theorem dotQ_comm (v w : List ℚ) : dotQ v w = dotQ w v := by
  induction v generalizing w with
  | nil => cases w <;> rfl
  | cons a v ih =>
    cases w with
    | nil => rfl
    | cons b w =>
      simp only [dotQ, List.zipWith_cons_cons, List.sum_cons] at *
      rw [mul_comm a b]
      exact congrArg (fun t => b * a + t) (ih w)

theorem normSq_cons (a : ℚ) (l : List ℚ) :
    normSq (a :: l) = a * a + normSq l := rfl

theorem normSq_nonneg (v : List ℚ) : 0 ≤ normSq v := by
  induction v with
  | nil => exact le_refl 0
  | cons a l ih =>
    rw [normSq_cons]
    exact add_nonneg (mul_self_nonneg a) ih

theorem normSq_pos_of_ne_zero (v : List ℚ) (h : ∃ x ∈ v, x ≠ 0) :
    0 < normSq v := by
  induction v with
  | nil => rcases h with ⟨x, hx, _⟩; exact absurd hx (List.not_mem_nil x)
  | cons a l ih =>
    rw [normSq_cons]
    rcases h with ⟨x, hx, hx0⟩
    rcases List.mem_cons.mp hx with h1 | h2
    · subst h1
      exact add_pos_of_pos_of_nonneg (mul_self_pos.mpr hx0) (normSq_nonneg l)
    · exact add_pos_of_nonneg_of_pos (mul_self_nonneg a) (ih ⟨x, h2, hx0⟩)

theorem cosine_similarity_comm (v w : List ℚ) :
    cosine_similarity v w = cosine_similarity w v := by
  unfold cosine_similarity
  by_cases hlen : v.length = w.length
  · rw [if_pos hlen, if_pos hlen.symm]
    by_cases hz : normSq v = 0 ∨ normSq w = 0
    · rw [if_pos hz, if_pos (Or.symm hz)]
    · rw [if_neg hz, if_neg (fun h => hz (Or.symm h)), dotQ_comm, mul_comm]
  · rw [if_neg hlen, if_neg (fun h => hlen h.symm)]

theorem cosine_similarity_self (v : List ℚ) (h : ∃ x ∈ v, x ≠ 0) :
    cosine_similarity v v = 1 := by
  have hpos : 0 < normSq v := normSq_pos_of_ne_zero v h
  have hne : normSq v ≠ 0 := ne_of_gt hpos
  unfold cosine_similarity
  rw [if_pos rfl, if_neg (by simp [hne])]
  have hcast : (0 : ℝ) ≤ ((normSq v : ℚ) : ℝ) := by
    exact_mod_cast le_of_lt hpos
  rw [Real.mul_self_sqrt hcast]
  have hcast2 : ((normSq v : ℚ) : ℝ) ≠ 0 := by
    exact_mod_cast hne
  show ((dotQ v v : ℚ) : ℝ) / ((normSq v : ℚ) : ℝ) = 1
  rw [show dotQ v v = normSq v from rfl]
  exact div_self hcast2

theorem cosine_similarity_zero_norm (v w : List ℚ)
    (h : normSq v = 0 ∨ normSq w = 0) : cosine_similarity v w = 0 := by
  unfold cosine_similarity
  by_cases hlen : v.length = w.length
  · rw [if_pos hlen, if_pos h]
  · rw [if_neg hlen]

/-! ## Stable descending sort

Model of the Python call similarities.sort(key=lambda x: x[0], reverse=True)
in VectorStore._search_memory.  CPython list.sort is stable, and stability
is preserved under reverse=True (the comparison is reversed, the list is
not reversed afterwards).  The insertion sort below is stable and sorts by
strictly the first component, descending: an element is inserted before the
first element whose key is less than or equal to its own, so an element
that occurs earlier in the input stays before later elements of equal key. -/

/-- Insert one keyed element into a descending-sorted list, before the first
element whose key does not exceed its own (stable descending insertion). -/
def insertDesc {κ α : Type} [LinearOrder κ] (x : κ × α) :
    List (κ × α) → List (κ × α)
  | [] => [x]
  | y :: ys => if y.1 ≤ x.1 then x :: y :: ys else y :: insertDesc x ys

/-- Stable sort by first component, descending. -/
def sortDesc {κ α : Type} [LinearOrder κ] : List (κ × α) → List (κ × α)
  | [] => []
  | x :: xs => insertDesc x (sortDesc xs)

theorem mem_insertDesc {κ α : Type} [LinearOrder κ] (x z : κ × α)
    (l : List (κ × α)) : z ∈ insertDesc x l ↔ z = x ∨ z ∈ l := by
  induction l with
  | nil => simp [insertDesc]
  | cons y ys ih =>
    unfold insertDesc
    by_cases h : y.1 ≤ x.1
    · rw [if_pos h]
      simp [List.mem_cons]
    · rw [if_neg h]
      simp only [List.mem_cons, ih]
      tauto

/-- Inserting preserves the descending-keys invariant. -/
theorem pairwise_insertDesc {κ α : Type} [LinearOrder κ] (x : κ × α)
    (l : List (κ × α))
    (h : l.Pairwise (fun a b => b.1 ≤ a.1)) :
    (insertDesc x l).Pairwise (fun a b => b.1 ≤ a.1) := by
  induction l with
  | nil => simp [insertDesc]
  | cons y ys ih =>
    rcases List.pairwise_cons.mp h with ⟨hy, hys⟩
    unfold insertDesc
    by_cases hle : y.1 ≤ x.1
    · rw [if_pos hle]
      refine List.pairwise_cons.mpr ⟨?_, h⟩
      intro z hz
      rcases List.mem_cons.mp hz with h1 | h2
      · subst h1; exact hle
      · exact le_trans (hy z h2) hle
    · rw [if_neg hle]
      refine List.pairwise_cons.mpr ⟨?_, ih hys⟩
      intro z hz
      rcases (mem_insertDesc x z ys).mp hz with h1 | h2
      · subst h1; exact le_of_lt (lt_of_not_le hle)
      · exact hy z h2

theorem pairwise_sortDesc {κ α : Type} [LinearOrder κ] (l : List (κ × α)) :
    (sortDesc l).Pairwise (fun a b => b.1 ≤ a.1) := by
  induction l with
  | nil => simp [sortDesc]
  | cons x xs ih => exact pairwise_insertDesc x (sortDesc xs) ih

/-- Stability of the insertion step, expressed through filtering by key:
the elements of a fixed key s keep their relative order, with the newly
inserted element (which comes first in the input order handled by sortDesc)
placed in front when its key is s. -/
theorem filter_insertDesc {κ α : Type} [LinearOrder κ] [DecidableEq κ]
    (s : κ) (x : κ × α) (l : List (κ × α)) :
    (insertDesc x l).filter (fun z => decide (z.1 = s)) =
      if x.1 = s then x :: l.filter (fun z => decide (z.1 = s))
      else l.filter (fun z => decide (z.1 = s)) := by
  induction l with
  | nil =>
    by_cases hx : x.1 = s <;> simp [insertDesc, List.filter, hx]
  | cons y ys ih =>
    unfold insertDesc
    by_cases hle : y.1 ≤ x.1
    · rw [if_pos hle]
      by_cases hx : x.1 = s <;> simp [List.filter_cons, hx]
    · rw [if_neg hle]
      have hlt : x.1 < y.1 := lt_of_not_le hle
      by_cases hy : y.1 = s
      · have hx : ¬ x.1 = s := by
          intro hxs
          exact absurd (hxs.trans hy.symm) (ne_of_lt hlt)
        simp [List.filter_cons, hy, hx, ih]
      · by_cases hx : x.1 = s <;> simp [List.filter_cons, hy, hx, ih]

/-- Stability of sortDesc: filtering the sorted list by any fixed key yields
exactly the same sequence as filtering the input, i.e. equal-key elements
keep their input (insertion) order. -/
theorem filter_sortDesc {κ α : Type} [LinearOrder κ] [DecidableEq κ]
    (s : κ) (l : List (κ × α)) :
    (sortDesc l).filter (fun z => decide (z.1 = s)) =
      l.filter (fun z => decide (z.1 = s)) := by
  induction l with
  | nil => rfl
  | cons x xs ih =>
    show (insertDesc x (sortDesc xs)).filter (fun z => decide (z.1 = s)) = _
    rw [filter_insertDesc]
    by_cases hx : x.1 = s <;> simp [List.filter_cons, hx, ih]

/-! ## VectorStore: state and operations

From src/services/vector_store.py.  The Qdrant client, the uuid generator
and the query embedder are external capabilities; they appear as explicit
parameters (an Except outcome for each cloud call, an id generator indexed
by loop position, an embedding function on query strings).  The attribute
_memory_store is only assigned on some paths, so it is an Option: none
means the attribute does not exist and touching it raises AttributeError,
which the try/except blocks of the store and search methods turn into
False and the empty list respectively. -/

/-- Caller-supplied metadata mapping, as stored verbatim by the local
backend. -/
abbrev Meta : Type := List (String × String)

/-- One record of the in-memory store (_store_memory appends exactly these
five fields). -/
structure MemRecord where
  id : String
  vector : List ℚ
  text : String
  chunk_index : ℕ
  metadata : Meta
deriving DecidableEq

/-- One formatted search result (text, score, metadata). -/
structure DocResult where
  text : String
  score : ℝ
  metadata : Meta

/-- The mutable fields of a VectorStore instance that the claims concern. -/
structure VSState where
  use_cloud : Bool
  memory_store : Option (List MemRecord)

/-- Model of the for loop of _store_memory: enumerate(zip(chunks,
embeddings)) starting at index i, appending one record per pair. -/
def storeRecsFrom (idGen : ℕ → String) (md : Meta) :
    ℕ → List (String × List ℚ) → List MemRecord
  | _, [] => []
  | i, (c, v) :: rest =>
    ⟨idGen i, v, c, i, md⟩ :: storeRecsFrom idGen md (i + 1) rest

/-- Model of VectorStore._store_memory on the underlying list: pairs chunks
with vectors positionally and appends the new records. -/
def store_memory_list (idGen : ℕ → String) (chunks : List String)
    (vectors : List (List ℚ)) (md : Option Meta) (ms : List MemRecord) :
    List MemRecord :=
  ms ++ storeRecsFrom idGen (md.getD []) 0 (chunks.zip vectors)

/-- Model of VectorStore._store_memory: if _memory_store does not exist the
first append raises AttributeError, the except branch returns False and
the state is unchanged; otherwise all records are appended and it returns
True. -/
def store_memory (idGen : ℕ → String) (chunks : List String)
    (vectors : List (List ℚ)) (md : Option Meta) (st : VSState) :
    Bool × VSState :=
  match st.memory_store with
  | none => (false, st)
  | some ms =>
    (true, { st with
      memory_store := some (store_memory_list idGen chunks vectors md ms) })

/-- Model of VectorStore._store_cloud: on success (upsert returns) the
memory state is unchanged and True is returned; on any exception use_cloud
is set to False and _store_memory is retried on the demoted state. -/
def store_cloud (cloudOutcome : Except String Unit) (idGen : ℕ → String)
    (chunks : List String) (vectors : List (List ℚ)) (md : Option Meta)
    (st : VSState) : Bool × VSState :=
  match cloudOutcome with
  | .ok _ => (true, st)
  | .error _ =>
    store_memory idGen chunks vectors md { st with use_cloud := false }

/-- Model of VectorStore.store_embeddings: dispatch on use_cloud. -/
def store_embeddings (cloudOutcome : Except String Unit)
    (idGen : ℕ → String) (chunks : List String) (vectors : List (List ℚ))
    (md : Option Meta) (st : VSState) : Bool × VSState :=
  if st.use_cloud then store_cloud cloudOutcome idGen chunks vectors md st
  else store_memory idGen chunks vectors md st

/-- The scored list built by the similarity loop of _search_memory: one
(cosine similarity, record) pair per stored record, in stored order. -/
noncomputable def scoreAll (qe : List ℚ) (ms : List MemRecord) :
    List (ℝ × MemRecord) :=
  ms.map (fun r => (cosine_similarity qe r.vector, r))

/-- Formatting of one scored record into a search result. -/
def toDocResult (p : ℝ × MemRecord) : DocResult :=
  ⟨p.2.text, p.1, p.2.metadata⟩

/-- Model of VectorStore._search_memory: empty store returns []; an empty
query embedding (embedding failure) returns []; otherwise score every
record, sort by score descending (stable), truncate to limit, format.
A missing _memory_store attribute raises and the except branch
returns []. -/
noncomputable def search_memory (embed : String → List ℚ) (query : String)
    (limit : ℕ) (st : VSState) : List DocResult :=
  match st.memory_store with
  | none => []
  | some ms =>
    if ms = [] then []
    else
      let qe := embed query
      if qe = [] then []
      else ((sortDesc (scoreAll qe ms)).take limit).map toDocResult

/-- Model of VectorStore._search_cloud: an empty query embedding returns []
with no demotion; a search exception demotes to the local backend and
retries there; success returns the formatted cloud hits unchanged. -/
noncomputable def search_cloud (cloudOutcome : Except String (List DocResult))
    (embed : String → List ℚ) (query : String) (limit : ℕ) (st : VSState) :
    List DocResult × VSState :=
  if embed query = [] then ([], st)
  else
    match cloudOutcome with
    | .ok results => (results, st)
    | .error _ =>
      (search_memory embed query limit { st with use_cloud := false },
       { st with use_cloud := false })

/-- Model of VectorStore.search_similar: dispatch on use_cloud. -/
noncomputable def search_similar (cloudOutcome : Except String (List DocResult))
    (embed : String → List ℚ) (query : String) (limit : ℕ) (st : VSState) :
    List DocResult × VSState :=
  if st.use_cloud then search_cloud cloudOutcome embed query limit st
  else (search_memory embed query limit st, st)

/-- Model of VectorStore._ensure_collection: a no-op off the cloud; on the
cloud a success changes nothing, and any exception demotes to the local
backend and initializes the in-memory store. -/
def ensure_collection (cloudOutcome : Except String Unit) (st : VSState) :
    VSState :=
  if st.use_cloud then
    match cloudOutcome with
    | .ok _ => st
    | .error _ => { use_cloud := false, memory_store := some [] }
  else st

/-- Fixed collection name from src/config.py. -/
def collectionName : String := "pdf_embeddings"

/-- Diagnostic data the cloud client returns for get_collection. -/
structure CloudInfo where
  vector_size : ℕ
  distance : String
  points_count : ℕ

/-- The mapping returned by get_collection_info (absent keys are none). -/
structure InfoResult where
  name : String
  storage : String
  points_count : Option ℕ
  vector_size : Option ℕ
  distance : Option String
  errMsg : Option String

/-- Model of VectorStore.get_collection_info.  The cloud branch catches its
own exceptions; the local branch reads len(_memory_store) unguarded, so a
missing attribute raises to the caller (modeled as Except.error).  No
branch modifies the instance state. -/
def get_collection_info (cloudOutcome : Except String CloudInfo)
    (st : VSState) : Except String InfoResult × VSState :=
  if st.use_cloud then
    match cloudOutcome with
    | .ok info =>
      (.ok ⟨collectionName, "Qdrant Cloud", some info.points_count,
        some info.vector_size, some info.distance, none⟩, st)
    | .error e =>
      (.ok ⟨collectionName, "Qdrant Cloud (error)", none, none, none,
        some e⟩, st)
  else
    match st.memory_store with
    | none => (.error "AttributeError: _memory_store", st)
    | some ms =>
      (.ok ⟨collectionName, "In-Memory", some ms.length, some 384, none,
        none⟩, st)

/-! ## GroqService and intent classification

From src/services/groq_service.py and src/graph/nodes.py.  The ChatGroq
model call is external: its outcome is an Except parameter (error carries
the exception text).  GroqService.invoke catches every exception of the
call and substitutes a fixed apology string, so it never raises. -/

/-- The fixed string GroqService.invoke returns when the model call
raises. -/
def groqApology : String :=
  "I apologize, but I encountered an error processing your request."

/-- The dictionary returned by GroqService.invoke. -/
structure GroqResult where
  content : String
deriving DecidableEq

/-- Model of GroqService.invoke: a successful model call passes the content
through; any exception is caught and replaced by the apology content. -/
def groq_invoke (callOutcome : Except String String) : GroqResult :=
  match callOutcome with
  | .ok c => ⟨c⟩
  | .error _ => ⟨groqApology⟩

/-- The partial state update returned by classify_intent: the intent field
and the value stored in metadata under intent_classification. -/
structure IntentResult where
  intent : String
  intent_classification : String
deriving DecidableEq

/-- Model of GraphNodes.classify_intent.  The argument is the outcome of
the self.llm.invoke call as seen inside the try block: ok r means the call
returned the dictionary r (which is what GroqService.invoke always does),
error e means an exception reached the except branch of classify_intent
itself.  The returned content is stripped, lower-cased and coerced into
the closed set, and the coerced value is also recorded in metadata. -/
def classify_intent (llmInvoke : Except String GroqResult) : IntentResult :=
  match llmInvoke with
  | .ok r =>
    let intent := pyLower (pyStrip r.content)
    let intent := if intent = "weather" ∨ intent = "pdf" then intent
      else "pdf"
    ⟨intent, intent⟩
  | .error _ => ⟨"pdf", "error"⟩

/-! ## Pipeline driver

From src/graph/graph.py.  The compiled LangGraph invocation is external:
the driver passes it the initial state and either receives a final state
or catches an exception.  Both are modeled by an Except-valued function of
the initial state. -/

/-- The state dictionary threaded through the graph (GraphState in
src/graph/nodes.py). -/
structure GraphState where
  query : String
  intent : String
  weather_data : List (String × String)
  retrieved_docs : List DocResult
  final_response : String
  metadata : List (String × String)

/-- The result dictionary returned by the driver. -/
structure QueryResult where
  query : String
  intent : String
  response : String
  weather_data : List (String × String)
  retrieved_docs_count : ℕ
  metadata : List (String × String)

/-- The fixed error response of the driver except branch. -/
def driverErrorResponse : String :=
  "I encountered an error while processing your request. Please try again."

/-- The initial state built by process_query for a query. -/
def initialState (query : String) : GraphState :=
  ⟨query, "", [], [], "", []⟩

/-- Model of AIProcessingGraph.process_query: run the graph on the initial
state; package the final state on success; on any exception return the
fixed well-formed error record with the exception text under the error
key of metadata. -/
def process_query (graphInvoke : GraphState → Except String GraphState)
    (query : String) : QueryResult :=
  match graphInvoke (initialState query) with
  | .ok result =>
    ⟨query, result.intent, result.final_response, result.weather_data,
      result.retrieved_docs.length, result.metadata⟩
  | .error e =>
    ⟨query, "unknown", driverErrorResponse, [], 0, [("error", e)]⟩

/-- Model of AIProcessingGraph.aprocess_query, whose body is identical to
process_query except that the graph is awaited. -/
def aprocess_query (graphInvoke : GraphState → Except String GraphState)
    (query : String) : QueryResult :=
  match graphInvoke (initialState query) with
  | .ok result =>
    ⟨query, result.intent, result.final_response, result.weather_data,
      result.retrieved_docs.length, result.metadata⟩
  | .error e =>
    ⟨query, "unknown", driverErrorResponse, [], 0, [("error", e)]⟩

/-! ## WeatherService.format_weather_response

From src/services/weather_services.py lines 55-66.  The snapshot is a
Python dict whose values can be strings, numbers or None: a key can be
absent (dict.get then yields the given default) or present with value
None (dict.get then yields None, which the f-string renders as the text
None).  str.title is only defined on strings, so a non-string description
value raises; the rendering of a number by str() is an external parameter
numRender, and str.title is the external parameter title. -/

/-- A Python value as it occurs in the weather dict. -/
inductive PyVal where
  | pvStr : String → PyVal
  | pvNum : ℚ → PyVal
  | pvNone : PyVal
deriving DecidableEq

/-- Python str() rendering of a value inside an f-string. -/
def pyRepr (numRender : ℚ → String) : PyVal → String
  | .pvStr s => s
  | .pvNum q => numRender q
  | .pvNone => "None"

/-- The first value stored under a key, if the key is present. -/
def lookupVal (d : List (String × PyVal)) (k : String) : Option PyVal :=
  (d.find? (fun kv => kv.1 == k)).map (fun kv => kv.2)

/-- Model of Python dict.get(k, default). -/
def dictGet (d : List (String × PyVal)) (k : String) (dflt : PyVal) :
    PyVal :=
  (lookupVal d k).getD dflt

/-- Model of WeatherService.format_weather_response.  An empty dict is
falsy and short-circuits; a non-string description value makes the
title() call raise (Except.error); otherwise the f-string template is
rendered with each dict.get default as in the source. -/
def format_weather_response (numRender : ℚ → String)
    (title : String → String) (wd : List (String × PyVal)) :
    Except String String :=
  if wd = [] then .ok "Weather data not available."
  else
    match dictGet wd "description" (.pvStr "Unknown") with
    | .pvStr desc =>
      .ok ("Weather in " ++ pyRepr numRender (dictGet wd "city" (.pvStr "Unknown"))
        ++ ", " ++ pyRepr numRender (dictGet wd "country" (.pvStr ""))
        ++ ":\n- Temperature: "
        ++ pyRepr numRender (dictGet wd "temperature" (.pvStr "N/A"))
        ++ "°C (feels like "
        ++ pyRepr numRender (dictGet wd "feels_like" (.pvStr "N/A"))
        ++ "°C)\n- Condition: " ++ title desc
        ++ "\n- Humidity: "
        ++ pyRepr numRender (dictGet wd "humidity" (.pvStr "N/A"))
        ++ "%\n- Wind Speed: "
        ++ pyRepr numRender (dictGet wd "wind_speed" (.pvStr "N/A"))
        ++ " m/s")
    | _ => .error "AttributeError: title called on a non-string value"

/-! ## PDFService.process_pdf

From src/services/pdf_service.py.  Text extraction, the recursive text
splitter and the sentence-transformers encoder are external capabilities,
passed in as functions; the encoder outcome is an Except because
create_embeddings catches its exceptions and degrades to []. -/

/-- Model of PDFService.chunk_text: whitespace-only text yields no chunks,
otherwise the splitter runs. -/
def chunk_text (splitText : String → List String) (text : String) :
    List String :=
  if pyStrip text = "" then [] else splitText text

/-- Model of PDFService.create_embeddings: encoder failure degrades to an
empty list instead of raising. -/
def create_embeddings (encode : List String → Except String (List (List ℚ)))
    (chunks : List String) : List (List ℚ) :=
  match encode chunks with
  | .ok l => l
  | .error _ => []

/-- The metadata sub-dictionary of a process_pdf result. -/
structure PdfMeta where
  source : String
  total_chunks : ℕ
deriving DecidableEq

/-- The result dictionary of process_pdf.  The metadata field is an
Option: none models the absence of the metadata key (the early returns of
the source build a dict with only the chunks and embeddings keys). -/
structure PdfResult where
  chunks : List String
  embeddings : List (List ℚ)
  metadata : Option PdfMeta

/-- Model of PDFService.process_pdf: empty extracted text or an empty
chunk list short-circuits to a result without a metadata key; otherwise
chunks, their embeddings and the metadata dict are returned. -/
def process_pdf (extractText : String → String)
    (splitText : String → List String)
    (encode : List String → Except String (List (List ℚ)))
    (pdfPath : String) : PdfResult :=
  let text := extractText pdfPath
  if text = "" then ⟨[], [], none⟩
  else
    let chunks := chunk_text splitText text
    if chunks = [] then ⟨[], [], none⟩
    else ⟨chunks, create_embeddings encode chunks,
      some ⟨pdfPath, chunks.length⟩⟩

/-! ## Claim theorems -/

/-- C1: For every input query string (including the empty string) and every
outcome of the graph invocation, process_query returns a well-formed result
record; when an exception escapes the per-stage guards, the record carries
intent unknown, the fixed error response string, empty weather data, a zero
document count and the exception text under the error key of metadata; and
aprocess_query behaves identically to process_query.  The driver therefore
never raises to its caller. -/
theorem claim_C1_driver_never_raises :
    (∀ (g : GraphState → Except String GraphState) (q e : String),
        g (initialState q) = .error e →
        process_query g q =
          ⟨q, "unknown", driverErrorResponse, [], 0, [("error", e)]⟩) ∧
    (∀ (g : GraphState → Except String GraphState) (q : String)
        (s : GraphState),
        g (initialState q) = .ok s →
        process_query g q =
          ⟨q, s.intent, s.final_response, s.weather_data,
            s.retrieved_docs.length, s.metadata⟩) ∧
    (∀ (g : GraphState → Except String GraphState) (q : String),
        aprocess_query g q = process_query g q) := by
  refine ⟨?_, ?_, ?_⟩
  · intro g q e h
    unfold process_query
    rw [h]
  · intro g q s h
    unfold process_query
    rw [h]
  · intro g q
    rfl

/-- Witness for C1 at a concrete graph outcome and the empty query. -/
theorem claim_C1_witness :
    process_query (fun _ => .error "boom") "" =
      ⟨"", "unknown", driverErrorResponse, [], 0, [("error", "boom")]⟩ :=
  claim_C1_driver_never_raises.1 (fun _ => .error "boom") "" "boom" rfl

/-- C2: classify_intent always yields an intent in the closed set weather
or pdf; the returned content is stripped and lower-cased before
validation; a normalized value outside the set is coerced to pdf, a value
inside the set is kept verbatim; a failure of the underlying Groq call
(caught by GroqService.invoke and turned into the apology content) yields
pdf; and an exception reaching classify_intent itself also yields pdf.  It
never raises. -/
theorem claim_C2_intent_closed_set :
    (∀ o : Except String GroqResult,
        (classify_intent o).intent = "weather" ∨
          (classify_intent o).intent = "pdf") ∧
    (∀ r : GroqResult,
        pyLower (pyStrip r.content) ≠ "weather" →
        pyLower (pyStrip r.content) ≠ "pdf" →
        (classify_intent (.ok r)).intent = "pdf") ∧
    (∀ r : GroqResult,
        (pyLower (pyStrip r.content) = "weather" ∨
          pyLower (pyStrip r.content) = "pdf") →
        (classify_intent (.ok r)).intent = pyLower (pyStrip r.content)) ∧
    (∀ e : String,
        (classify_intent (.ok (groq_invoke (.error e)))).intent = "pdf") ∧
    (∀ e : String, (classify_intent (.error e)).intent = "pdf") := by
  refine ⟨?_, ?_, ?_, ?_, ?_⟩
  · intro o
    cases o with
    | error e => right; rfl
    | ok r =>
      show (if pyLower (pyStrip r.content) = "weather" ∨
            pyLower (pyStrip r.content) = "pdf"
          then pyLower (pyStrip r.content) else "pdf") = "weather" ∨
        (if pyLower (pyStrip r.content) = "weather" ∨
            pyLower (pyStrip r.content) = "pdf"
          then pyLower (pyStrip r.content) else "pdf") = "pdf"
      by_cases h : pyLower (pyStrip r.content) = "weather" ∨
          pyLower (pyStrip r.content) = "pdf"
      · rw [if_pos h]; exact h
      · rw [if_neg h]; right; rfl
  · intro r h1 h2
    show (if pyLower (pyStrip r.content) = "weather" ∨
          pyLower (pyStrip r.content) = "pdf"
        then pyLower (pyStrip r.content) else "pdf") = "pdf"
    rw [if_neg (by intro h; cases h with
      | inl h => exact h1 h
      | inr h => exact h2 h)]
  · intro r h
    show (if pyLower (pyStrip r.content) = "weather" ∨
          pyLower (pyStrip r.content) = "pdf"
        then pyLower (pyStrip r.content) else "pdf") =
      pyLower (pyStrip r.content)
    rw [if_pos h]
  · intro e
    show (classify_intent (.ok ⟨groqApology⟩)).intent = "pdf"
    decide
  · intro e
    rfl

/-- Witness for C2 at a concrete unrecognized model answer. -/
theorem claim_C2_witness :
    (classify_intent (.ok ⟨"BANANA"⟩)).intent = "pdf" ∧
    (classify_intent (.ok ⟨" Weather "⟩)).intent = "weather" := by
  constructor
  · exact claim_C2_intent_closed_set.2.1 ⟨"BANANA"⟩ (by decide) (by decide)
  · have h := claim_C2_intent_closed_set.2.2.1 ⟨" Weather "⟩
      (Or.inl (by decide))
    rw [h]
    decide

/-- C8 counterexample: when the underlying Groq call fails,
GroqService.invoke catches the exception and returns the apology content,
so classify_intent records the coerced value pdf under
intent_classification, not the literal error; and an unrecognized answer
is recorded as pdf, not as the raw value. -/
theorem claim_C8_counterexample :
    IntentResult.intent_classification
        (classify_intent (.ok (groq_invoke (.error "connection refused"))))
      = "pdf" ∧
    (classify_intent (.ok ⟨"banana"⟩)).intent_classification = "pdf" ∧
    ("pdf" : String) ≠ "error" ∧ ("pdf" : String) ≠ "banana" := by
  refine ⟨by decide, by decide, by decide, by decide⟩

/-- C8 amended: classify_intent records under intent_classification the
coerced intent value: the normalized model output when it lies in the
closed set weather or pdf, and pdf otherwise; in particular a failure of
the underlying Groq call (which GroqService.invoke converts into the
apology content) is recorded as pdf; the literal error is recorded exactly
when an exception propagates into classify_intent itself. -/
theorem claim_C8_metadata_records_coerced_intent :
    (∀ r : GroqResult,
        (classify_intent (.ok r)).intent_classification =
          (if pyLower (pyStrip r.content) = "weather" ∨
              pyLower (pyStrip r.content) = "pdf"
            then pyLower (pyStrip r.content) else "pdf")) ∧
    (∀ e : String,
        (classify_intent
          (.ok (groq_invoke (.error e)))).intent_classification = "pdf") ∧
    (∀ e : String,
        (classify_intent (.error e)).intent_classification = "error") := by
  refine ⟨?_, ?_, ?_⟩
  · intro r
    rfl
  · intro e
    show (classify_intent (.ok ⟨groqApology⟩)).intent_classification = "pdf"
    decide
  · intro e
    rfl

/-- C3: the use_cloud flag is one-way: no operation of the store (ensure
collection, store embeddings, search, collection info) ever turns it back
to true; get_collection_info never changes the state at all; and an
exception during a persistent-backend ensure, store or search demotes
use_cloud to false and runs the same operation against the local backend
(for ensure, initializing the in-memory store, which is all the local
ensure amounts to), returning its result instead of raising. -/
theorem claim_C3_one_way_demotion :
    (∀ (o : Except String Unit) (st : VSState),
        (ensure_collection o st).use_cloud = true → st.use_cloud = true) ∧
    (∀ (o : Except String Unit) (g : ℕ → String) (c : List String)
        (v : List (List ℚ)) (m : Option Meta) (st : VSState),
        (store_embeddings o g c v m st).2.use_cloud = true →
          st.use_cloud = true) ∧
    (∀ (o : Except String (List DocResult)) (em : String → List ℚ)
        (q : String) (l : ℕ) (st : VSState),
        (search_similar o em q l st).2.use_cloud = true →
          st.use_cloud = true) ∧
    (∀ (o : Except String CloudInfo) (st : VSState),
        (get_collection_info o st).2 = st) ∧
    (∀ (err : String) (st : VSState), st.use_cloud = true →
        ensure_collection (.error err) st = ⟨false, some []⟩) ∧
    (∀ (err : String) (g : ℕ → String) (c : List String)
        (v : List (List ℚ)) (m : Option Meta) (st : VSState),
        st.use_cloud = true →
        store_embeddings (.error err) g c v m st =
          store_memory g c v m ⟨false, st.memory_store⟩ ∧
        (store_embeddings (.error err) g c v m st).2.use_cloud = false) ∧
    (∀ (err : String) (em : String → List ℚ) (q : String) (l : ℕ)
        (st : VSState),
        st.use_cloud = true → em q ≠ [] →
        search_similar (.error err) em q l st =
          (search_memory em q l ⟨false, st.memory_store⟩,
            ⟨false, st.memory_store⟩)) := by
  refine ⟨?_, ?_, ?_, ?_, ?_, ?_, ?_⟩
  · intro o st h
    rcases st with ⟨uc, ms⟩
    cases uc with
    | true => rfl
    | false => simp [ensure_collection] at h
  · intro o g c v m st h
    rcases st with ⟨uc, ms⟩
    cases uc with
    | true => rfl
    | false =>
      cases ms with
      | none => simp [store_embeddings, store_memory] at h
      | some l => simp [store_embeddings, store_memory] at h
  · intro o em q l st h
    rcases st with ⟨uc, ms⟩
    cases uc with
    | true => rfl
    | false => simp [search_similar] at h
  · intro o st
    rcases st with ⟨uc, ms⟩
    cases uc with
    | true => cases o <;> rfl
    | false => cases ms <;> rfl
  · intro err st h
    rcases st with ⟨uc, ms⟩
    cases uc with
    | true => rfl
    | false => exact absurd h (by simp)
  · intro err g c v m st h
    rcases st with ⟨uc, ms⟩
    cases uc with
    | true =>
      refine ⟨rfl, ?_⟩
      cases ms with
      | none => rfl
      | some l => rfl
    | false => exact absurd h (by simp)
  · intro err em q l st h hqe
    rcases st with ⟨uc, ms⟩
    cases uc with
    | true =>
      show search_cloud (.error err) em q l ⟨true, ms⟩ = _
      unfold search_cloud
      rw [if_neg hqe]
    | false => exact absurd h (by simp)

/-- Witness for C3 at a concrete state and failing cloud outcome. -/
theorem claim_C3_witness :
    ensure_collection (.error "down") ⟨true, none⟩ = ⟨false, some []⟩ ∧
    store_embeddings (.error "down") (fun _ => "id") [] [] none
        ⟨true, none⟩ =
      store_memory (fun _ => "id") [] [] none ⟨false, none⟩ := by
  constructor
  · exact claim_C3_one_way_demotion.2.2.2.2.1 "down" ⟨true, none⟩ rfl
  · exact (claim_C3_one_way_demotion.2.2.2.2.2.1 "down" (fun _ => "id")
      [] [] none ⟨true, none⟩ rfl).1

/-- C5: the cosine similarity of the store is symmetric in its arguments;
the self-similarity of any vector with a non-zero entry is exactly 1 (the
exact-arithmetic reading of 1.0 up to floating-point tolerance); and
whenever either argument has zero norm the result is exactly 0, with no
division performed. -/
theorem claim_C5_cosine_properties :
    (∀ v w : List ℚ, cosine_similarity v w = cosine_similarity w v) ∧
    (∀ v : List ℚ, (∃ x ∈ v, x ≠ 0) → cosine_similarity v v = 1) ∧
    (∀ v w : List ℚ, normSq v = 0 ∨ normSq w = 0 →
        cosine_similarity v w = 0) :=
  ⟨cosine_similarity_comm, cosine_similarity_self,
    cosine_similarity_zero_norm⟩

/-- Witness for C5 at concrete vectors. -/
theorem claim_C5_witness :
    cosine_similarity [(1 : ℚ)] [(1 : ℚ)] = 1 ∧
    cosine_similarity [(0 : ℚ)] [(1 : ℚ)] = 0 :=
  ⟨claim_C5_cosine_properties.2.1 [(1 : ℚ)]
     ⟨1, List.mem_singleton.mpr rfl, one_ne_zero⟩,
   claim_C5_cosine_properties.2.2 [(0 : ℚ)] [(1 : ℚ)]
     (Or.inl (by norm_num [normSq, dotQ]))⟩

/-- C4: for every local store state, query embedder, query and limit, the
memory search returns at most limit results sorted by non-increasing
score; whenever the store list exists and the query embedding is
non-empty, the output is exactly the stable descending sort of the
(cosine similarity of the query embedding with each stored vector, record)
pairs, truncated to limit and formatted; and the sort is stable: filtering
by any fixed score value yields the pairs in stored (insertion) order. -/
theorem claim_C4_search_memory_ordering :
    (∀ (embed : String → List ℚ) (q : String) (limit : ℕ) (st : VSState),
        (search_memory embed q limit st).length ≤ limit) ∧
    (∀ (embed : String → List ℚ) (q : String) (limit : ℕ) (st : VSState),
        (search_memory embed q limit st).Pairwise
          (fun a b => b.score ≤ a.score)) ∧
    (∀ (embed : String → List ℚ) (q : String) (limit : ℕ) (st : VSState)
        (ms : List MemRecord),
        st.memory_store = some ms → embed q ≠ [] →
        search_memory embed q limit st =
          ((sortDesc (scoreAll (embed q) ms)).take limit).map toDocResult) ∧
    (∀ (l : List (ℝ × MemRecord)) (s : ℝ),
        (sortDesc l).filter (fun z => decide (z.1 = s)) =
          l.filter (fun z => decide (z.1 = s))) := by
  refine ⟨?_, ?_, ?_, ?_⟩
  · intro embed q limit st
    unfold search_memory
    cases hms : st.memory_store with
    | none => simp
    | some ms =>
      by_cases h1 : ms = []
      · simp [h1]
      · by_cases h2 : embed q = []
        · simp [h1, h2]
        · simp only [h1, h2, if_false, ite_false, List.length_map]
          rw [List.length_take]
          exact le_trans (min_le_left _ _) (le_refl _)
  · intro embed q limit st
    unfold search_memory
    cases hms : st.memory_store with
    | none => simp
    | some ms =>
      by_cases h1 : ms = []
      · simp [h1]
      · by_cases h2 : embed q = []
        · simp [h1, h2]
        · simp only [h1, h2, if_false, ite_false]
          refine List.pairwise_map.mpr ?_
          have hs := pairwise_sortDesc (scoreAll (embed q) ms)
          exact List.Pairwise.sublist (List.take_sublist limit _) hs
  · intro embed q limit st ms hms hqe
    unfold search_memory
    rw [hms]
    by_cases h1 : ms = []
    · subst h1
      simp [scoreAll, sortDesc]
    · simp only [h1, hqe, if_false, ite_false]
  · intro l s
    exact filter_sortDesc s l

/-- Witness for C4 at a concrete state, embedder and limit. -/
theorem claim_C4_witness :
    search_memory (fun _ => [(1 : ℚ)]) "q" 2 ⟨false, some []⟩ =
      ((sortDesc (scoreAll [(1 : ℚ)] [])).take 2).map toDocResult :=
  claim_C4_search_memory_ordering.2.2.1 (fun _ => [(1 : ℚ)]) "q" 2
    ⟨false, some []⟩ [] rfl (by simp)

/-- C6: storing a single chunk with a vector that has a non-zero entry
into an empty local store succeeds, and a subsequent search whose query
embedding is exactly that vector returns precisely that chunk as the
top-ranked (indeed only) result with score exactly 1. -/
theorem claim_C6_store_search_roundtrip :
    ∀ (v : List ℚ) (c q : String) (md : Option Meta) (idGen : ℕ → String)
      (limit : ℕ),
      (∃ x ∈ v, x ≠ 0) → 1 ≤ limit →
      (store_memory idGen [c] [v] md ⟨false, some []⟩).1 = true ∧
      search_memory (fun _ => v) q limit
          (store_memory idGen [c] [v] md ⟨false, some []⟩).2 =
        [⟨c, 1, md.getD []⟩] := by
  intro v c q md idGen limit hv hlim
  have hvne : v ≠ [] := by
    rcases hv with ⟨x, hx, _⟩
    intro h
    subst h
    exact absurd hx (List.not_mem_nil x)
  have h1 : cosine_similarity v v = 1 := cosine_similarity_self v hv
  refine ⟨rfl, ?_⟩
  obtain ⟨n, rfl⟩ : ∃ n, limit = n + 1 := ⟨limit - 1, by omega⟩
  show (if ([⟨idGen 0, v, c, 0, md.getD []⟩] : List MemRecord) = [] then []
      else if v = [] then []
      else List.map toDocResult
        (List.take (n + 1)
          (sortDesc (scoreAll v [⟨idGen 0, v, c, 0, md.getD []⟩])))) = _
  rw [if_neg (by simp), if_neg hvne]
  simp only [scoreAll, List.map_cons, List.map_nil, sortDesc, insertDesc,
    List.take_succ_cons, List.take_nil, toDocResult, h1]

/-- Witness for C6 at a concrete vector and chunk. -/
theorem claim_C6_witness :
    (store_memory (fun _ => "id") ["chunk"] [[(1 : ℚ)]] none
        ⟨false, some []⟩).1 = true ∧
    search_memory (fun _ => [(1 : ℚ)]) "q" 1
        (store_memory (fun _ => "id") ["chunk"] [[(1 : ℚ)]] none
          ⟨false, some []⟩).2 =
      [⟨"chunk", 1, []⟩] :=
  claim_C6_store_search_roundtrip [(1 : ℚ)] "chunk" "q" none
    (fun _ => "id") 1 ⟨1, List.mem_singleton.mpr rfl, one_ne_zero⟩
    (le_refl 1)

/-- The length of the record batch equals the length of the zipped input. -/
theorem storeRecsFrom_length (idGen : ℕ → String) (md : Meta) :
    ∀ (l : List (String × List ℚ)) (j : ℕ),
      (storeRecsFrom idGen md j l).length = l.length := by
  intro l
  induction l with
  | nil => intro j; rfl
  | cons p rest ih =>
    intro j
    obtain ⟨cc, vv⟩ := p
    simp [storeRecsFrom, ih (j + 1)]

/-- Pointwise description of the record batch: position i of the batch
started at offset j holds the pair at position i, with id idGen (j + i)
and chunk index j + i. -/
theorem storeRecsFrom_get (idGen : ℕ → String) (md : Meta) :
    ∀ (l : List (String × List ℚ)) (j i : ℕ),
      (storeRecsFrom idGen md j l).get? i =
        (l.get? i).map
          (fun p => ⟨idGen (j + i), p.2, p.1, j + i, md⟩) := by
  intro l
  induction l with
  | nil => intro j i; rfl
  | cons p rest ih =>
    intro j i
    obtain ⟨cc, vv⟩ := p
    cases i with
    | zero => simp [storeRecsFrom]
    | succ i =>
      have h2 : j + 1 + i = j + (i + 1) := by omega
      show (storeRecsFrom idGen md (j + 1) rest).get? i = _
      rw [ih (j + 1) i, h2]
      rfl

/-- The ids of the batch started at offset j are idGen applied to the
consecutive positions j, j+1, and so on. -/
theorem storeRecsFrom_ids (idGen : ℕ → String) (md : Meta) :
    ∀ (l : List (String × List ℚ)) (j : ℕ),
      (storeRecsFrom idGen md j l).map (fun r => r.id) =
        (List.range' j l.length).map idGen := by
  intro l
  induction l with
  | nil => intro j; rfl
  | cons p rest ih =>
    intro j
    obtain ⟨cc, vv⟩ := p
    simp [storeRecsFrom, List.range'_succ, ih (j + 1)]

/-- C7: the local store pairs chunks with vectors positionally, truncating
to the shorter sequence; it appends exactly one record per pair, whose
chunk index is its position in the batch, whose metadata is the caller
metadata (empty when the caller passed none), and whose id comes from the
id generator at that position; it returns true whenever the memory store
exists; and under an injective (collision-free) id generator, the ids of
the batch are pairwise distinct. -/
theorem claim_C7_store_positional :
    ∀ (idGen : ℕ → String) (chunks : List String)
      (vectors : List (List ℚ)) (md : Option Meta) (ms : List MemRecord),
      (∀ st : VSState, st.memory_store = some ms →
        store_memory idGen chunks vectors md st =
          (true,
            { st with
              memory_store :=
                some (store_memory_list idGen chunks vectors md ms) })) ∧
      store_memory_list idGen chunks vectors md ms =
        ms ++ storeRecsFrom idGen (md.getD []) 0 (chunks.zip vectors) ∧
      (storeRecsFrom idGen (md.getD []) 0 (chunks.zip vectors)).length =
        min chunks.length vectors.length ∧
      (∀ i : ℕ,
        (storeRecsFrom idGen (md.getD []) 0 (chunks.zip vectors)).get? i =
          ((chunks.zip vectors).get? i).map
            (fun p => ⟨idGen i, p.2, p.1, i, md.getD []⟩)) ∧
      (Function.Injective idGen →
        ((storeRecsFrom idGen (md.getD []) 0 (chunks.zip vectors)).map
          (fun r => r.id)).Nodup) := by
  intro idGen chunks vectors md ms
  refine ⟨?_, rfl, ?_, ?_, ?_⟩
  · intro st hst
    rcases st with ⟨uc, msf⟩
    cases msf with
    | none => cases hst
    | some l =>
      cases hst
      rfl
  · rw [storeRecsFrom_length, List.length_zip]
  · intro i
    have h := storeRecsFrom_get idGen (md.getD []) (chunks.zip vectors) 0 i
    simpa using h
  · intro hinj
    rw [storeRecsFrom_ids]
    exact List.Nodup.map hinj (List.nodup_range' _ _ 1 Nat.one_pos)

/-- Witness for C7 with a concrete injective id generator. -/
theorem claim_C7_witness :
    ((storeRecsFrom (fun n => String.mk (List.replicate n 'a')) [] 0
        (["a", "b"].zip [[(1 : ℚ)], [(2 : ℚ)]])).map
      (fun r => r.id)).Nodup := by
  have hinj : Function.Injective
      (fun n => String.mk (List.replicate n 'a')) := by
    intro a b h
    have h2 := congrArg (fun s => s.data.length) h
    simpa using h2
  exact (claim_C7_store_positional
    (fun n => String.mk (List.replicate n 'a')) ["a", "b"]
    [[(1 : ℚ)], [(2 : ℚ)]] none []).2.2.2.2 hinj

/-- C9 counterexample: with a PDF whose extracted text is empty,
process_pdf returns a mapping that contains only the chunks and
embeddings keys and no metadata key at all, contradicting the claim that
the result always carries metadata with source and total_chunks. -/
theorem claim_C9_counterexample :
    process_pdf (fun _ => "") (fun _ => []) (fun _ => .ok [])
        "empty.pdf" =
      ⟨[], [], none⟩ := rfl

/-- C9 amended: process_pdf always returns the chunks and embeddings
keys; when the chunk list is non-empty it also returns the metadata key
with source equal to the input path and total_chunks equal to the number
of chunks; when there is nothing to index it returns empty chunks and
embeddings without a metadata key (so callers, like the upload flow in
app.py, must guard on non-empty chunks before storing). -/
theorem claim_C9_result_shape :
    ∀ (extractText : String → String) (splitText : String → List String)
      (encode : List String → Except String (List (List ℚ)))
      (path : String),
      ((process_pdf extractText splitText encode path).chunks ≠ [] →
        (process_pdf extractText splitText encode path).metadata =
          some ⟨path,
            (process_pdf extractText splitText encode path).chunks.length⟩) ∧
      ((process_pdf extractText splitText encode path).chunks = [] →
        (process_pdf extractText splitText encode path).metadata =
          none) := by
  intro ext split enc path
  unfold process_pdf
  by_cases h1 : ext path = ""
  · simp [h1]
  · by_cases h2 : chunk_text split (ext path) = []
    · simp [h1, h2]
    · simp [h1, h2]

/-- Witness for C9 at concrete capabilities producing one chunk. -/
theorem claim_C9_witness :
    (process_pdf (fun _ => "text") (fun t => [t])
        (fun _ => .ok [[(1 : ℚ)]]) "doc.pdf").metadata =
      some ⟨"doc.pdf", 1⟩ := by
  have h := (claim_C9_result_shape (fun _ => "text") (fun t => [t])
    (fun _ => .ok [[(1 : ℚ)]]) "doc.pdf").1 (by decide)
  exact h

/-- C10: on a weather snapshot whose optional numeric keys (temperature,
feels_like, humidity, wind_speed) are all absent, the formatter renders
the literal N/A in each of their places; an absent description renders
through its default Unknown passed to title, and an absent country
renders as the empty default; the call returns normally (no exception),
in particular for a snapshot containing only the city key. -/
theorem claim_C10_weather_missing_fields :
    ∀ (numRender : ℚ → String) (title : String → String)
      (wd : List (String × PyVal)) (city : String),
      lookupVal wd "city" = some (.pvStr city) →
      lookupVal wd "temperature" = none →
      lookupVal wd "feels_like" = none →
      lookupVal wd "humidity" = none →
      lookupVal wd "wind_speed" = none →
      lookupVal wd "description" = none →
      lookupVal wd "country" = none →
      format_weather_response numRender title wd =
        .ok ("Weather in " ++ city ++ ", " ++ "" ++ ":\n- Temperature: "
          ++ "N/A" ++ "°C (feels like " ++ "N/A" ++ "°C)\n- Condition: "
          ++ title "Unknown" ++ "\n- Humidity: " ++ "N/A"
          ++ "%\n- Wind Speed: " ++ "N/A" ++ " m/s") := by
  intro nr title wd city hcity ht hf hh hw hd hc
  have hne : wd ≠ [] := by
    intro h
    subst h
    simp [lookupVal] at hcity
  unfold format_weather_response
  rw [if_neg hne]
  simp [dictGet, hcity, ht, hf, hh, hw, hd, hc, pyRepr]

/-- Witness for C10 at the snapshot containing only the city key. -/
theorem claim_C10_witness :
    format_weather_response (fun _ => "") (fun s => s)
        [("city", .pvStr "Unknown")] =
      .ok ("Weather in " ++ "Unknown" ++ ", " ++ "" ++ ":\n- Temperature: "
        ++ "N/A" ++ "°C (feels like " ++ "N/A" ++ "°C)\n- Condition: "
        ++ "Unknown" ++ "\n- Humidity: " ++ "N/A"
        ++ "%\n- Wind Speed: " ++ "N/A" ++ " m/s") :=
  claim_C10_weather_missing_fields (fun _ => "") (fun s => s)
    [("city", .pvStr "Unknown")] "Unknown" rfl rfl rfl rfl rfl rfl rfl

end LanggraphApp
